import Mathlib

set_option maxRecDepth 40000

/-!
Verification of `scripts/bootstrap.py`, a scaffolding tool that renders a
fixed set of project files from string templates and then runs a linear
chain of external commands (`uv venv`, `uv sync`, lint, format check,
type check, tests).

The Python code is shallowly embedded:
* Python strings are Lean `String`s (character lists via `String.data`);
  `str.lower()` is modelled at the ASCII level, which is where the tool's
  inputs (project names, version strings) live.
* Filesystem paths built with `pathlib` operator `/` are modelled as lists
  of path components (`List String`), relative to the target directory.
* The effectful part of `bootstrap` (file writes followed by external
  commands) is modelled as a list of actions interpreted against a `World`
  that says which paths are writable and what each external command
  returns; the interpreter mirrors the early-exit behaviour of
  `create_file` (an `OSError` aborts the run) and `run` (a non-zero child
  exit code prints the captured stderr and calls `sys.exit(1)`).
-/

namespace Bootstrap

/-- Python `s.replace(old, new)` for a single-character pattern and a
single-character replacement, as in `project_name.replace("-", "_")`
(bootstrap.py line 31): every occurrence of `old` becomes `new`. -/
def pyReplaceChar (old new : Char) (s : String) : String :=
  ⟨s.data.map fun c => if c = old then new else c⟩

/-- Python `s.replace(old, "")` for a single-character pattern, as in
`python_version.replace('.', '')` (bootstrap.py line 68): every
occurrence of `old` is deleted. -/
def pyRemoveChar (old : Char) (s : String) : String :=
  ⟨s.data.filter fun c => c != old⟩

/-- Python `str.lower()` on one character, at the ASCII level: the
uppercase letters `A`..`Z` (code points 65..90) map to their lowercase
counterparts (code point + 32); every other character is unchanged.
(Python's `str.lower()` also lowercases non-ASCII letters; the tool's
inputs are ASCII and the claims are settled at the ASCII level.) -/
def pyLowerChar (c : Char) : Char :=
  if 65 ≤ c.toNat ∧ c.toNat ≤ 90 then Char.ofNat (c.toNat + 32) else c

/-- Python `str.lower()` (ASCII level): lowercase every character. -/
def pyLower (s : String) : String :=
  ⟨s.data.map pyLowerChar⟩

/-- bootstrap.py line 31: the derived package identifier,
`package_name = project_name.replace("-", "_").lower()`. -/
def packageName (project_name : String) : String :=
  pyLower (pyReplaceChar '-' '_' project_name)

/-! ### Character-level facts about the normalization -/

/-- A character is determined by its code point. -/
lemma char_eq_of_toNat_eq {c : Char} {n : Nat} (h : c.toNat = n) :
    c = Char.ofNat n := by
  rw [← h, Char.ofNat_toNat]

/-- An ASCII uppercase letter is one of the 26 literal characters. -/
lemma upper_enum (c : Char) (h1 : 65 ≤ c.toNat) (h2 : c.toNat ≤ 90) :
    c ∈ ['A', 'B', 'C', 'D', 'E', 'F', 'G', 'H', 'I', 'J', 'K', 'L', 'M',
         'N', 'O', 'P', 'Q', 'R', 'S', 'T', 'U', 'V', 'W', 'X', 'Y', 'Z'] := by
  have hc := Char.ofNat_toNat c
  set n := c.toNat with hn
  interval_cases n <;> (rw [← hc]; decide)

/-- The single-character normalization applied by `packageName`:
replace a hyphen by an underscore, then lowercase. -/
def normChar (c : Char) : Char :=
  pyLowerChar (if c = '-' then '_' else c)

/-- `packageName` is the character-wise map of `normChar`. -/
lemma packageName_data (s : String) :
    (packageName s).data = s.data.map normChar := by
  simp [packageName, pyLower, pyReplaceChar, normChar, List.map_map]

/-- `normChar` is idempotent on every character. -/
lemma normChar_idem (c : Char) : normChar (normChar c) = normChar c := by
  by_cases hdash : c = '-'
  · subst hdash; decide
  · by_cases hup : 65 ≤ c.toNat ∧ c.toNat ≤ 90
    · have hmem := upper_enum c hup.1 hup.2
      fin_cases hmem <;> decide
    · simp only [normChar, if_neg hdash, pyLowerChar, if_neg hup]

/-! ### C1: the derived package identifier -/

/-- Definition following the spec's words (for claim C1): the project
name with every hyphen replaced by an underscore and every letter
lowercased. -/
def specNormalizedName (s : String) : String :=
  ⟨s.data.map fun c => if c = '-' then '_' else pyLowerChar c⟩

/-- C1: for every project name, the derived package identifier equals the
project name with every hyphen replaced by an underscore and every letter
lowercased; in particular `"My-Cool-Tool"` yields `"my_cool_tool"`.
Determinism and purity are inherent: `packageName` is a total Lean
function of the project name alone. -/
theorem package_name_from_project_name :
    (∀ s : String, packageName s = specNormalizedName s) ∧
      packageName "My-Cool-Tool" = "my_cool_tool" := by
  refine ⟨fun s => ?_, by decide⟩
  have h : ∀ c : Char, normChar c = if c = '-' then '_' else pyLowerChar c := by
    intro c
    by_cases hdash : c = '-'
    · subst hdash; decide
    · simp [normChar, if_neg hdash]
  apply String.ext
  rw [packageName_data]
  simp only [specNormalizedName]
  exact List.map_congr_left fun c _ => h c

/-! ### C8: idempotence of the normalization -/

/-- C8: the package-identifier normalization is idempotent: applying it to
an already-normalized identifier yields that identifier unchanged. -/
theorem package_name_idem (s : String) :
    packageName (packageName s) = packageName s := by
  apply String.ext
  rw [packageName_data, packageName_data, List.map_map]
  exact List.map_congr_left fun c _ => normChar_idem c

/-! ### C9: import- and filesystem-safety of the identifier -/

/-- First character of a (ASCII) Python identifier: a letter or `_`. -/
def isIdentStart (c : Char) : Bool :=
  decide (97 ≤ c.toNat ∧ c.toNat ≤ 122) || decide (65 ≤ c.toNat ∧ c.toNat ≤ 90) ||
    decide (c.toNat = 95)

/-- Later character of a (ASCII) Python identifier: a letter, `_`, or a digit. -/
def isIdentCont (c : Char) : Bool :=
  isIdentStart c || decide (48 ≤ c.toNat ∧ c.toNat ≤ 57)

/-- An (ASCII) Python identifier. -/
def importSafeChars : List Char → Bool
  | [] => false
  | c :: cs => isIdentStart c && cs.all isIdentCont

/-- Definition following the spec's words (claim C9): a
"filesystem-and-import-safe" package name, i.e. a valid Python module
name usable as an import target: a nonempty ASCII identifier. Such a
name is also a safe path component (it is nonempty and contains no
separator, no NUL, and no `.`). -/
def importSafeName (s : String) : Bool :=
  importSafeChars s.data

/-- A project-name character for which normalization produces an
identifier character: an identifier character or a hyphen. -/
def allowedProjectChar (c : Char) : Bool :=
  isIdentCont c || decide (c.toNat = 45)

lemma normChar_of_plain {c : Char} (h1 : c ≠ '-')
    (h2 : ¬(65 ≤ c.toNat ∧ c.toNat ≤ 90)) : normChar c = c := by
  simp only [normChar, if_neg h1, pyLowerChar, if_neg h2]

lemma toNat_dash : ('-').toNat = 45 := by decide

/-- Normalizing an allowed character yields an identifier character. -/
lemma normChar_cont {c : Char} (h : allowedProjectChar c = true) :
    isIdentCont (normChar c) = true := by
  simp only [allowedProjectChar, isIdentCont, isIdentStart, Bool.or_eq_true,
    decide_eq_true_eq] at h
  rcases h with (((h | h) | h) | h) | h
  · have hne : c ≠ '-' := by intro he; rw [he, toNat_dash] at h; omega
    rw [normChar_of_plain hne (by omega)]
    simp only [isIdentCont, isIdentStart, Bool.or_eq_true, decide_eq_true_eq]
    omega
  · have hmem := upper_enum c h.1 h.2
    fin_cases hmem <;> decide
  · have he := char_eq_of_toNat_eq h
    rw [he]; decide
  · have hne : c ≠ '-' := by intro he; rw [he, toNat_dash] at h; omega
    rw [normChar_of_plain hne (by omega)]
    simp only [isIdentCont, isIdentStart, Bool.or_eq_true, decide_eq_true_eq]
    omega
  · have he := char_eq_of_toNat_eq h
    rw [he]; decide

/-- Normalizing an allowed non-digit character yields a character that may
start an identifier. -/
lemma normChar_start {c : Char} (h : allowedProjectChar c = true)
    (hd : ¬(48 ≤ c.toNat ∧ c.toNat ≤ 57)) :
    isIdentStart (normChar c) = true := by
  simp only [allowedProjectChar, isIdentCont, isIdentStart, Bool.or_eq_true,
    decide_eq_true_eq] at h
  rcases h with (((h | h) | h) | h) | h
  · have hne : c ≠ '-' := by intro he; rw [he, toNat_dash] at h; omega
    rw [normChar_of_plain hne (by omega)]
    simp only [isIdentStart, Bool.or_eq_true, decide_eq_true_eq]
    omega
  · have hmem := upper_enum c h.1 h.2
    fin_cases hmem <;> decide
  · have he := char_eq_of_toNat_eq h
    rw [he]; decide
  · exact absurd h hd
  · have he := char_eq_of_toNat_eq h
    rw [he]; decide

/-- C9 counterexample: the claim quantifies over every human-facing
project name, but the code does not sanitize; a project name containing a
space yields a package identifier containing a space, which is not a
valid Python module name. -/
theorem package_name_not_import_safe_cex :
    importSafeName (packageName "my tool") = false := by decide

/-- C9 (amended): for every nonempty project name whose characters are
ASCII letters, digits, hyphens or underscores, and whose first character
is not a digit, the derived package identifier is a valid (ASCII) Python
module name, hence import- and filesystem-safe. -/
theorem package_name_import_safe (c : Char) (cs : List Char)
    (h1 : allowedProjectChar c = true)
    (h2 : ∀ d ∈ cs, allowedProjectChar d = true)
    (h3 : ¬(48 ≤ c.toNat ∧ c.toNat ≤ 57)) :
    importSafeName (packageName ⟨c :: cs⟩) = true := by
  rw [importSafeName, packageName_data]
  simp only [List.map_cons, importSafeChars, Bool.and_eq_true]
  refine ⟨normChar_start h1 h3, ?_⟩
  rw [List.all_map, List.all_eq_true]
  exact fun d hd => normChar_cont (h2 d hd)

/-- Witness for `package_name_import_safe` at the project name
`"My-Tool-2"`. -/
theorem package_name_import_safe_witness :
    importSafeName (packageName ⟨'M' :: "y-Tool-2".data⟩) = true :=
  package_name_import_safe 'M' "y-Tool-2".data (by decide) (by decide)
    (by decide)

/-! ### The template renderer: `textwrap.dedent` followed by `str.lstrip`

`create_file` (bootstrap.py lines 12-16) writes
`textwrap.dedent(content).lstrip()`. `dedent` is modelled after its
CPython implementation: blank-looking lines (one or more spaces/tabs and
nothing else) are normalized to empty, the margin is the longest common
leading run of spaces/tabs over the remaining nonempty lines, and the
margin is removed from the start of every line that begins with it. -/

/-- A character matched by the `[ \t]` character classes used by
`textwrap.dedent`'s regular expressions. -/
def isIndentChar (c : Char) : Bool :=
  c == ' ' || c == '\t'

/-- Split a character list at newline characters (the `re.MULTILINE` line
structure: a line is a maximal newline-free segment, and a trailing
newline yields a final empty line). `List.intercalate ['\n']` is the
inverse. -/
def splitLines : List Char → List (List Char)
  | [] => [[]]
  | c :: cs =>
    if c = '\n' then [] :: splitLines cs
    else
      match splitLines cs with
      | l :: ls => (c :: l) :: ls
      | [] => [[c]]

/-- Longest common prefix of two character lists (the `margin[:i]`
fallback in CPython's `textwrap.dedent` margin computation). -/
def commonPrefix : List Char → List Char → List Char
  | a :: as, b :: bs => if a = b then a :: commonPrefix as bs else []
  | _, _ => []

/-- One step of CPython `textwrap.dedent`'s margin computation: keep the
current margin if it is a prefix of the next line's indentation, shrink
to that indentation if it is a prefix of the margin, and otherwise fall
back to the longest common prefix. -/
def mergeMargin (margin indent : List Char) : List Char :=
  if margin.isPrefixOf indent then margin
  else if indent.isPrefixOf margin then indent
  else commonPrefix margin indent

/-- `textwrap.dedent` (CPython): normalize whitespace-only lines to
empty, compute the margin over the nonempty lines, then strip the margin
from every line that starts with it. -/
def dedent (s : String) : String :=
  let lines := (splitLines s.data).map fun l =>
    if !l.isEmpty && l.all isIndentChar then [] else l
  let indents := lines.filterMap fun l =>
    if l.isEmpty then none else some (l.takeWhile isIndentChar)
  let margin :=
    match indents with
    | [] => []
    | i :: is => is.foldl mergeMargin i
  let stripped :=
    if margin.isEmpty then lines
    else lines.map fun l => if margin.isPrefixOf l then l.drop margin.length else l
  ⟨List.intercalate ['\n'] stripped⟩

/-- A character stripped by Python's `str.lstrip()` (ASCII whitespace:
space, tab, newline, carriage return, vertical tab, form feed). -/
def isPySpace (c : Char) : Bool :=
  c == ' ' || c == '\t' || c == '\n' || c == '\r' || c == '\x0b' || c == '\x0c'

/-- Python `str.lstrip()`: drop leading whitespace characters. -/
def lstrip (s : String) : String :=
  ⟨s.data.dropWhile isPySpace⟩

/-- bootstrap.py line 15: the content actually written by `create_file`
is `textwrap.dedent(content).lstrip()`. -/
def createFileContent (content : String) : String :=
  lstrip (dedent content)

/-! ### The templates

Each definition below is the exact f-string passed to `create_file` in
`bootstrap` (bootstrap.py lines 41-247), with the substitution variables
as parameters: an eight-space indented block, no leading newline (the
f-strings open with a line continuation), and a trailing newline plus
eight spaces before the closing quotes. -/

/-- The `pyproject.toml` template (bootstrap.py lines 43-99). -/
def pyprojectTemplate (project_name python_version description package_name : String) :
    String :=
  "        [project]
        name = \"" ++ project_name ++ "\"
        version = \"0.1.0\"
        description = \"" ++ description ++ "\"
        readme = \"README.md\"
        requires-python = \">=" ++ python_version ++ "\"
        dependencies = []

        [project.optional-dependencies]
        dev = [
            \"pytest>=8.0\",
            \"ruff>=0.8\",
            \"pyright>=1.1\",
            \"pre-commit>=4.0\",
        ]

        [build-system]
        requires = [\"hatchling\"]
        build-backend = \"hatchling.build\"

        [tool.hatch.build.targets.wheel]
        packages = [\"src/" ++ package_name ++ "\"]

        [tool.ruff]
        target-version = \"py" ++ pyRemoveChar '.' python_version ++ "\"
        src = [\"src\", \"tests\"]
        line-length = 88

        [tool.ruff.lint]
        select = [
            \"E\",    # pycodestyle errors
            \"W\",    # pycodestyle warnings
            \"F\",    # pyflakes
            \"I\",    # isort
            \"N\",    # pep8-naming
            \"UP\",   # pyupgrade
            \"B\",    # flake8-bugbear
            \"SIM\",  # flake8-simplify
            \"TCH\",  # flake8-type-checking
            \"RUF\",  # ruff-specific rules
        ]

        [tool.ruff.lint.isort]
        known-first-party = [\"" ++ package_name ++ "\"]

        [tool.pyright]
        pythonVersion = \"" ++ python_version ++ "\"
        typeCheckingMode = \"strict\"
        include = [\"src\", \"tests\"]
        venvPath = \".\"
        venv = \".venv\"

        [tool.pytest.ini_options]
        testpaths = [\"tests\"]
        pythonpath = [\"src\"]
        "

/-- The `src/<package>/__init__.py` template (bootstrap.py lines 105-107). -/
def initTemplate (project_name description : String) : String :=
  "        \"\"\"" ++ project_name ++ ": " ++ description ++ ".\"\"\"
        "

/-- The `tests/test_<package>.py` template (bootstrap.py lines 123-132). -/
def testTemplate (package_name : String) : String :=
  "        \"\"\"Tests for " ++ package_name ++ ".\"\"\"

        from " ++ package_name ++ " import __doc__


        def test_package_has_docstring() -> None:
            \"\"\"Verify package is importable and has a docstring.\"\"\"
            assert __doc__ is not None
        "

/-- The `.pre-commit-config.yaml` template (bootstrap.py lines 138-155). -/
def preCommitTemplate : String :=
  "        repos:
          - repo: https://github.com/astral-sh/ruff-pre-commit
            rev: v0.8.6
            hooks:
              - id: ruff
                args: [--fix]
              - id: ruff-format

          - repo: local
            hooks:
              - id: pyright
                name: pyright
                entry: uv run pyright
                language: system
                types: [python]
                pass_filenames: false
        "

/-- The `.github/workflows/ci.yml` template (bootstrap.py lines 161-196). -/
def ciTemplate (python_version : String) : String :=
  "        name: CI

        on:
          push:
            branches: [main]
          pull_request:
            branches: [main]

        jobs:
          check:
            runs-on: ubuntu-latest
            steps:
              - uses: actions/checkout@v4

              - name: Install uv
                uses: astral-sh/setup-uv@v4

              - name: Set up Python
                run: uv python install " ++ python_version ++ "

              - name: Install dependencies
                run: uv sync --all-extras

              - name: Lint (ruff)
                run: uv run ruff check src tests

              - name: Format check (ruff)
                run: uv run ruff format --check src tests

              - name: Type check (pyright)
                run: uv run pyright

              - name: Test (pytest)
                run: uv run pytest
        "

/-- The `.gitignore` template (bootstrap.py lines 202-216). -/
def gitignoreTemplate : String :=
  "        __pycache__/
        *.py[cod]
        *$py.class
        *.egg-info/
        dist/
        build/
        .venv/
        .mypy_cache/
        .pyright/
        .ruff_cache/
        .pytest_cache/
        .coverage
        htmlcov/
        "

/-- The `README.md` template (bootstrap.py lines 222-246). -/
def readmeTemplate (project_name description : String) : String :=
  "        # " ++ project_name ++ "

        " ++ description ++ "

        ## Development

        ```bash
        # Install dependencies
        uv sync --all-extras

        # Run tests
        uv run pytest

        # Lint and format
        uv run ruff check src tests
        uv run ruff format src tests

        # Type check
        uv run pyright

        # Install pre-commit hooks
        uv run pre-commit install
        ```
        "

/-! ### The rendered file set -/

/-- The files rendered by one run of `bootstrap` (bootstrap.py lines
41-247), in source order: the relative path of each file (as `pathlib`
components below the target directory) paired with the content written
by `create_file`. -/
def renderedFiles (project_name python_version description : String) :
    List (List String × String) :=
  let package_name := packageName project_name
  [(["pyproject.toml"],
      createFileContent
        (pyprojectTemplate project_name python_version description package_name)),
   (["src", package_name, "__init__.py"],
      createFileContent (initTemplate project_name description)),
   (["src", package_name, "py.typed"],
      createFileContent ""),
   (["tests", "__init__.py"],
      createFileContent ""),
   (["tests", "test_" ++ package_name ++ ".py"],
      createFileContent (testTemplate package_name)),
   ([".pre-commit-config.yaml"],
      createFileContent preCommitTemplate),
   ([".github", "workflows", "ci.yml"],
      createFileContent (ciTemplate python_version)),
   ([".gitignore"],
      createFileContent gitignoreTemplate),
   (["README.md"],
      createFileContent (readmeTemplate project_name description))]

/-- The content rendered for a given relative path, if any. -/
def fileContent (project_name python_version description : String)
    (p : List String) : Option String :=
  ((renderedFiles project_name python_version description).find? fun e =>
      e.1 == p).map Prod.snd

/-! ### C2: the sample manifest and test module -/

/-- C2: with project name `"sample"`, version `"3.12"` and empty
description, the rendered `pyproject.toml` contains the declarations
`name = "sample"` and `requires-python = ">=3.12"`, and the rendered
test module imports from package `sample` and asserts that its `__doc__`
is not `None`. -/
theorem sample_manifest_and_test_module :
    (fileContent "sample" "3.12" "" ["pyproject.toml"]).isSome = true ∧
      "name = \"sample\"".data <:+:
        ((fileContent "sample" "3.12" "" ["pyproject.toml"]).getD "").data ∧
      "requires-python = \">=3.12\"".data <:+:
        ((fileContent "sample" "3.12" "" ["pyproject.toml"]).getD "").data ∧
      (fileContent "sample" "3.12" "" ["tests", "test_sample.py"]).isSome = true ∧
      "from sample import __doc__".data <:+:
        ((fileContent "sample" "3.12" "" ["tests", "test_sample.py"]).getD "").data ∧
      "assert __doc__ is not None".data <:+:
        ((fileContent "sample" "3.12" "" ["tests", "test_sample.py"]).getD "").data := by
  decide

/-! ### C5: the declared file set, rendered exactly once, in order -/

/-- The declared file set in the fixed rendering order of the spec:
manifest, source package init, type marker, test package init, test
module, pre-commit config, CI workflow, ignore file, README. -/
def declaredPaths (package_name : String) : List (List String) :=
  [["pyproject.toml"],
   ["src", package_name, "__init__.py"],
   ["src", package_name, "py.typed"],
   ["tests", "__init__.py"],
   ["tests", "test_" ++ package_name ++ ".py"],
   [".pre-commit-config.yaml"],
   [".github", "workflows", "ci.yml"],
   [".gitignore"],
   ["README.md"]]

/-- The test module's file name never collides with the test package
init, whatever the package name. -/
lemma test_mod_ne_init (pkg : String) : ("test_" ++ pkg ++ ".py") ≠ "__init__.py" := by
  intro h
  have h2 := congrArg (fun s => s.data.head?) h
  simp only [String.data_append] at h2
  simp at h2

/-- C5: every run renders exactly the declared file set, in the fixed
order manifest, source package init, type marker, test package init,
test module, pre-commit config, CI workflow, ignore file, README — and
each file exactly once (the paths are pairwise distinct for every
package name). -/
theorem files_rendered_exactly_once (project_name python_version description : String) :
    (renderedFiles project_name python_version description).map Prod.fst =
        declaredPaths (packageName project_name) ∧
      (declaredPaths (packageName project_name)).Nodup := by
  constructor
  · simp [renderedFiles, declaredPaths]
  · simp only [declaredPaths, List.nodup_cons, List.mem_cons, List.mem_singleton,
      List.not_mem_nil, or_false, List.nodup_nil, and_true]
    refine ⟨?_, ?_, ?_, ?_, ?_, ?_, ?_, ?_⟩ <;> push_neg <;>
      simp_all [test_mod_ne_init (packageName project_name),
        (test_mod_ne_init (packageName project_name)).symm]

/-! ### C6: the renderer only strips the leading artifact -/

/-- Definition following the spec's words (claim C6): strip a single
leading blank line when the template starts with one, and strip the
longest whitespace prefix common to all lines containing non-whitespace
(the indentation artifact common to the templates) from the start of
every line that begins with it — and change nothing else. -/
def specStripped (s : String) : String :=
  let lines := splitLines s.data
  let lines1 :=
    match lines with
    | [] => []
    | l :: rest => if l.all isIndentChar && !rest.isEmpty then rest else l :: rest
  let indents := lines1.filterMap fun l =>
    if l.all isIndentChar then none else some (l.takeWhile isIndentChar)
  let margin :=
    match indents with
    | [] => []
    | i :: is => is.foldl commonPrefix i
  let stripped := lines1.map fun l =>
    if margin.isPrefixOf l then l.drop margin.length else l
  ⟨List.intercalate ['\n'] stripped⟩

/-- C6: for every template of the program (each instantiated with the
reference context — project `"sample"`, version `"3.12"`, empty
description), what `create_file` writes is the template with exactly the
single leading blank line / common indentation artifact stripped and
nothing else modified. -/
theorem renderer_strips_margin_only :
    (createFileContent (pyprojectTemplate "sample" "3.12" "" "sample") =
        specStripped (pyprojectTemplate "sample" "3.12" "" "sample")) ∧
      (createFileContent (initTemplate "sample" "") =
        specStripped (initTemplate "sample" "")) ∧
      (createFileContent "" = specStripped "") ∧
      (createFileContent (testTemplate "sample") =
        specStripped (testTemplate "sample")) ∧
      (createFileContent preCommitTemplate = specStripped preCommitTemplate) ∧
      (createFileContent (ciTemplate "3.12") = specStripped (ciTemplate "3.12")) ∧
      (createFileContent gitignoreTemplate = specStripped gitignoreTemplate) ∧
      (createFileContent (readmeTemplate "sample" "") =
        specStripped (readmeTemplate "sample" "")) := by
  refine ⟨?_, ?_, ?_, ?_, ?_, ?_, ?_, ?_⟩ <;> decide

/-! ### The effectful run: renders followed by the external-command chain

`bootstrap` writes the nine files, then calls `run` on six external
commands, all with `cwd` equal to the target directory (bootstrap.py
lines 249-268). `run` (lines 19-25) executes a command synchronously
with captured output; on a non-zero return code it prints a failure line
and the captured stderr, then calls `sys.exit(1)`. A filesystem error in
`create_file` (e.g. an unwritable target directory) raises an uncaught
`OSError`, aborting the process before anything later runs; the
preceding `project_dir.mkdir(parents=True, exist_ok=True)` succeeds on
an existing (even unwritable) directory and is not modelled. -/

/-- Outcome of one external command, as captured by `subprocess.run`. -/
structure CmdResult where
  returncode : Int
  stdout : String
  stderr : String

/-- The external world a run interacts with: which relative paths can be
written, and what each external command returns. All commands run with
the target directory as working directory, so the working directory is
not a parameter. -/
structure World where
  canWrite : List String → Bool
  exec : List String → CmdResult

/-- How the process ends: normally, via `sys.exit code`, or by an
uncaught filesystem error (non-zero process status). -/
inductive ExitStatus
  | ok
  | exited (code : Nat)
  | ioError
  deriving DecidableEq

/-- One step of `bootstrap`: render one file, or run one external
command. -/
inductive Action
  | render (path : List String) (content : String)
  | execCmd (cmd : List String)

/-- What a run did: the files written, the commands invoked, the failure
diagnostics printed by `run` (the per-step success messages are not
modelled), and how the process ended. -/
structure Trace where
  written : List (List String × String)
  invoked : List (List String)
  printed : List String
  exit : ExitStatus

/-- Interpret a list of actions against a world, with the early-exit
behaviour of the source: a failed write aborts with a filesystem error;
a command with non-zero return code prints the failure line and the
captured stderr and exits with status 1; later actions never run. -/
def runSteps (w : World) : List Action → Trace
  | [] => ⟨[], [], [], .ok⟩
  | .render p c :: rest =>
    if w.canWrite p then
      let t := runSteps w rest
      ⟨(p, c) :: t.written, t.invoked, t.printed, t.exit⟩
    else
      ⟨[], [], [], .ioError⟩
  | .execCmd cmd :: rest =>
    let r := w.exec cmd
    if r.returncode = 0 then
      let t := runSteps w rest
      ⟨t.written, cmd :: t.invoked, t.printed, t.exit⟩
    else
      ⟨[], [cmd],
        ["  ❌ Command failed: " ++ String.intercalate " " cmd, r.stderr],
        .exited 1⟩

/-- The external-command chain of `bootstrap` (lines 251-268), in order:
create venv, sync dependencies, lint, format-check, type-check, test. -/
def bootstrapCommands (python_version : String) : List (List String) :=
  [["uv", "venv", "--python", python_version],
   ["uv", "sync", "--all-extras"],
   ["uv", "run", "ruff", "check", "src", "tests"],
   ["uv", "run", "ruff", "format", "--check", "src", "tests"],
   ["uv", "run", "pyright"],
   ["uv", "run", "pytest"]]

/-- The full action sequence of one `bootstrap` run: the nine renders in
order, then the six commands in order. -/
def bootstrapActions (project_name python_version description : String) :
    List Action :=
  ((renderedFiles project_name python_version description).map fun pc =>
      Action.render pc.1 pc.2) ++
    (bootstrapCommands python_version).map Action.execCmd

/-- The trace of one `bootstrap` run against a given world. -/
def bootstrapTrace (w : World) (project_name python_version description : String) :
    Trace :=
  runSteps w (bootstrapActions project_name python_version description)

/-- When every write succeeds, the renders pass through: they record
their writes and leave the rest of the run unchanged. -/
lemma runSteps_renders (w : World) (hw : ∀ p, w.canWrite p = true)
    (pcs : List (List String × String)) (rest : List Action) :
    runSteps w ((pcs.map fun pc => Action.render pc.1 pc.2) ++ rest) =
      { written := pcs ++ (runSteps w rest).written,
        invoked := (runSteps w rest).invoked,
        printed := (runSteps w rest).printed,
        exit := (runSteps w rest).exit } := by
  induction pcs with
  | nil => simp [runSteps]
  | cons pc pcs ih => simp [runSteps, hw, ih]

/-- The command chain stops at the first failure: when the commands
before position `i` succeed and the command at `i` fails, exactly the
first `i + 1` commands are invoked, the failure line and the captured
stderr of command `i` are printed, and the run exits with status 1. -/
lemma runSteps_cmds_fail (w : World) :
    ∀ (cmds : List (List String)) (i : Nat), i < cmds.length →
      (∀ j, j < i → (w.exec (cmds.getD j [])).returncode = 0) →
      (w.exec (cmds.getD i [])).returncode ≠ 0 →
      runSteps w (cmds.map Action.execCmd) =
        { written := [],
          invoked := cmds.take (i + 1),
          printed := ["  ❌ Command failed: " ++
              String.intercalate " " (cmds.getD i []),
            (w.exec (cmds.getD i [])).stderr],
          exit := .exited 1 }
  | [], i, hi, _, _ => by simp at hi
  | c :: cs, 0, _, _, hfail => by
    simp only [List.getD_cons_zero] at hfail
    simp [runSteps, hfail]
  | c :: cs, i + 1, hi, hpre, hfail => by
    have h0 : (w.exec c).returncode = 0 := by
      have := hpre 0 (Nat.succ_pos i)
      simpa using this
    simp only [List.getD_cons_succ] at hfail
    have ih := runSteps_cmds_fail w cs i (by simpa using hi)
      (fun j hj => by simpa using hpre (j + 1) (Nat.succ_lt_succ hj)) hfail
    simp [runSteps, h0, ih, List.take_succ_cons]

/-! ### C3: a failing command stops the chain -/

/-- C3: for every run in which all writes succeed, if the command at
position `i` of the chain (create venv, sync, lint, format-check,
type-check, test) exits non-zero while all earlier commands exit zero,
then exactly the commands up to and including position `i` are executed
(none later), the captured stderr of the failing command is printed, and
the process terminates with the non-zero exit status 1. -/
theorem command_failure_stops_chain (w : World)
    (project_name python_version description : String) (i : Nat)
    (hw : ∀ p, w.canWrite p = true)
    (hi : i < (bootstrapCommands python_version).length)
    (hpre : ∀ j, j < i →
      (w.exec ((bootstrapCommands python_version).getD j [])).returncode = 0)
    (hfail : (w.exec ((bootstrapCommands python_version).getD i [])).returncode ≠ 0) :
    (bootstrapTrace w project_name python_version description).invoked =
        (bootstrapCommands python_version).take (i + 1) ∧
      (w.exec ((bootstrapCommands python_version).getD i [])).stderr ∈
        (bootstrapTrace w project_name python_version description).printed ∧
      (bootstrapTrace w project_name python_version description).exit =
        .exited 1 := by
  unfold bootstrapTrace bootstrapActions
  rw [runSteps_renders w hw, runSteps_cmds_fail w _ i hi hpre hfail]
  simp

/-- A world in which every write succeeds and every command succeeds
except `uv sync --all-extras`, which exits 1 with stderr
`"sync failed"`. -/
def failSyncWorld : World :=
  ⟨fun _ => true,
   fun c => if c = ["uv", "sync", "--all-extras"] then ⟨1, "", "sync failed"⟩
     else ⟨0, "", ""⟩⟩

/-- Witness for `command_failure_stops_chain`: with the dependency-sync
step failing, only the first two commands run, its stderr is printed,
and the process exits with status 1. -/
theorem command_failure_stops_chain_witness :
    (bootstrapTrace failSyncWorld "sample" "3.12" "").invoked =
        (bootstrapCommands "3.12").take 2 ∧
      (failSyncWorld.exec ((bootstrapCommands "3.12").getD 1 [])).stderr ∈
        (bootstrapTrace failSyncWorld "sample" "3.12" "").printed ∧
      (bootstrapTrace failSyncWorld "sample" "3.12" "").exit = .exited 1 :=
  command_failure_stops_chain failSyncWorld "sample" "3.12" "" 1
    (fun _ => rfl) (by decide)
    (by intro j hj; interval_cases j; decide) (by decide)

/-! ### C10: the exit status on command failure is exactly 1 -/

/-- C10: whenever an external command of the chain fails, the tool's own
exit status is exactly 1 — whichever step failed and whatever the
child's non-zero return code was, the child's code is never propagated
(the source always calls `sys.exit(1)`). -/
theorem failure_exit_code_is_one (w : World)
    (project_name python_version description : String) (i : Nat)
    (hw : ∀ p, w.canWrite p = true)
    (hi : i < (bootstrapCommands python_version).length)
    (hpre : ∀ j, j < i →
      (w.exec ((bootstrapCommands python_version).getD j [])).returncode = 0)
    (hfail : (w.exec ((bootstrapCommands python_version).getD i [])).returncode ≠ 0) :
    (bootstrapTrace w project_name python_version description).exit =
      .exited 1 := by
  unfold bootstrapTrace bootstrapActions
  rw [runSteps_renders w hw, runSteps_cmds_fail w _ i hi hpre hfail]

/-- A world in which every write succeeds and every command succeeds
except the test step, which exits with code 7. -/
def failPytestWorld : World :=
  ⟨fun _ => true,
   fun c => if c = ["uv", "run", "pytest"] then ⟨7, "", "tests failed"⟩
     else ⟨0, "", ""⟩⟩

/-- Witness for `failure_exit_code_is_one`: the test step fails with the
child exit code 7, yet the tool exits with status 1. -/
theorem failure_exit_code_is_one_witness :
    (bootstrapTrace failPytestWorld "sample" "3.12" "").exit = .exited 1 :=
  failure_exit_code_is_one failPytestWorld "sample" "3.12" "" 5
    (fun _ => rfl) (by decide)
    (by intro j hj; interval_cases j <;> decide) (by decide)

/-! ### C7: an unwritable target directory aborts before any command -/

/-- C7: if no path below the target directory is writable, the run
aborts on the very first render attempt with a filesystem error: nothing
is written and no external command is ever invoked. -/
theorem unwritable_dir_aborts (w : World)
    (project_name python_version description : String)
    (hw : ∀ p, w.canWrite p = false) :
    (bootstrapTrace w project_name python_version description).written = [] ∧
      (bootstrapTrace w project_name python_version description).invoked = [] ∧
      (bootstrapTrace w project_name python_version description).exit =
        .ioError := by
  unfold bootstrapTrace bootstrapActions renderedFiles
  simp [runSteps, hw]

/-! ### C4: deterministic, idempotent rendering

A filesystem below the target directory is a partial map from relative
paths to file contents; `Path.write_text` overwrites whatever is there.
Re-running `bootstrap` with the same inputs replays the same writes. -/

/-- Overwrite one file (the effect of `path.write_text`). -/
def writeFs (fs : List String → Option String) (p : List String) (c : String) :
    List String → Option String :=
  fun q => if q = p then some c else fs q

/-- Apply a run's writes, in order, to a filesystem. -/
def applyWrites (fs : List String → Option String)
    (ws : List (List String × String)) : List String → Option String :=
  ws.foldl (fun f pc => writeFs f pc.1 pc.2) fs

/-- The last content written to `q` by a list of writes, if any. -/
def lastWrite (q : List String) : List (List String × String) → Option String
  | [] => none
  | pc :: ws =>
    match lastWrite q ws with
    | some c => some c
    | none => if pc.1 = q then some pc.2 else none

lemma applyWrites_of_lastWrite_none :
    ∀ (ws : List (List String × String)) (fs : List String → Option String)
      (q : List String), lastWrite q ws = none →
      applyWrites fs ws q = fs q
  | [], _, _, _ => rfl
  | pc :: ws, fs, q, h => by
    rcases hlw : lastWrite q ws with _ | c'
    · simp only [lastWrite, hlw] at h
      have hne : ¬pc.1 = q := by
        intro heq
        rw [if_pos heq] at h
        exact Option.noConfusion h
      have hrec := applyWrites_of_lastWrite_none ws (writeFs fs pc.1 pc.2) q hlw
      rw [applyWrites, List.foldl_cons]
      rw [applyWrites] at hrec
      rw [hrec, writeFs]
      exact if_neg fun he => hne he.symm
    · simp [lastWrite, hlw] at h

lemma applyWrites_of_lastWrite_some :
    ∀ (ws : List (List String × String)) (fs : List String → Option String)
      (q : List String) (c : String), lastWrite q ws = some c →
      applyWrites fs ws q = some c
  | [], _, _, _, h => by simp [lastWrite] at h
  | pc :: ws, fs, q, c, h => by
    rw [applyWrites, List.foldl_cons]
    rcases hlw : lastWrite q ws with _ | c'
    · simp only [lastWrite, hlw] at h
      by_cases heq : pc.1 = q
      · rw [if_pos heq] at h
        have hrec := applyWrites_of_lastWrite_none ws (writeFs fs pc.1 pc.2) q hlw
        rw [applyWrites] at hrec
        rw [hrec, writeFs, if_pos heq.symm]
        exact h
      · rw [if_neg heq] at h
        exact Option.noConfusion h
    · simp only [lastWrite, hlw, Option.some.injEq] at h
      subst h
      have hrec := applyWrites_of_lastWrite_some ws (writeFs fs pc.1 pc.2) q c' hlw
      rw [applyWrites] at hrec
      exact hrec

/-- C4: rendering is deterministic in the inputs — identical project
name, version and description give byte-for-byte identical content for
every rendered file — and therefore re-running on an existing target
directory overwrites each file with identical bytes, leaving the
filesystem exactly as after the first run. -/
theorem rendering_deterministic_idempotent
    (n v d n' v' d' : String) (fs : List String → Option String)
    (h1 : n = n') (h2 : v = v') (h3 : d = d') :
    renderedFiles n v d = renderedFiles n' v' d' ∧
      applyWrites (applyWrites fs (renderedFiles n v d)) (renderedFiles n' v' d') =
        applyWrites fs (renderedFiles n v d) := by
  subst h1 h2 h3
  refine ⟨rfl, funext fun q => ?_⟩
  rcases hlw : lastWrite q (renderedFiles n v d) with _ | c
  · rw [applyWrites_of_lastWrite_none _ _ _ hlw,
      applyWrites_of_lastWrite_none _ _ _ hlw]
  · rw [applyWrites_of_lastWrite_some _ _ _ _ hlw,
      applyWrites_of_lastWrite_some _ _ _ _ hlw]

/-- Witness for `rendering_deterministic_idempotent` at the reference
inputs, starting from the empty filesystem. -/
theorem rendering_deterministic_idempotent_witness :
    renderedFiles "sample" "3.12" "" = renderedFiles "sample" "3.12" "" ∧
      applyWrites (applyWrites (fun _ => none) (renderedFiles "sample" "3.12" ""))
          (renderedFiles "sample" "3.12" "") =
        applyWrites (fun _ => none) (renderedFiles "sample" "3.12" "") :=
  rendering_deterministic_idempotent "sample" "3.12" "" "sample" "3.12" ""
    (fun _ => none) rfl rfl rfl

/-- A world in which no write succeeds. -/
def noWriteWorld : World :=
  ⟨fun _ => false, fun _ => ⟨0, "", ""⟩⟩

/-- Witness for `unwritable_dir_aborts`. -/
theorem unwritable_dir_aborts_witness :
    (bootstrapTrace noWriteWorld "sample" "3.12" "").written = [] ∧
      (bootstrapTrace noWriteWorld "sample" "3.12" "").invoked = [] ∧
      (bootstrapTrace noWriteWorld "sample" "3.12" "").exit = .ioError :=
  unwritable_dir_aborts noWriteWorld "sample" "3.12" "" (fun _ => rfl)

end Bootstrap
